import Mathlib

/-!
Verification of the Honey Rae repairs API ticket view
(`src/repairsapi/views/ticket_view.py`, class `TicketView`).

The view's five handlers (`list`, `retrieve`, `create`, `update`,
`destroy`) are embedded shallowly: the database tables become lists of
records, request payloads and query parameters become association
lists, and each handler becomes a function from a database state and
request data to an HTTP response (plus the new database state for the
mutating handlers).  Django ORM exceptions (`DoesNotExist`, `KeyError`
from subscripting `request.data`) are made explicit with `Except`.
-/

namespace HoneyRae

/-- A JSON-ish value carried in a request payload (`request.data` is a
parsed JSON body, so values are dynamically typed). -/
inductive Val where
  | str (s : String)
  | bool (b : Bool)
  | num (n : Nat)
  | null
  deriving DecidableEq, Repr

/-- A request payload (`request.data`): a finite map from string keys
to JSON values, embedded as an association list. -/
abbrev Payload := List (String × Val)

/-- `data[k]` lookup on a payload, `none` standing for the `KeyError`
case. -/
def Payload.get (d : Payload) (k : String) : Option Val :=
  (d.find? (fun kv => kv.1 = k)).map (fun kv => kv.2)

/-- `repairsapi.models.Employee` (fields used by the view and its
serializers: `id`, `specialty`, `full_name`). -/
structure Employee where
  id : Nat
  specialty : String
  full_name : String
  deriving DecidableEq, Repr

/-- `repairsapi.models.Customer` (fields used by the view and its
serializers: `id`, `address`, `full_name`, and the one-to-one `user`
link to an authentication identity, embedded as the user's id). -/
structure Customer where
  id : Nat
  address : String
  full_name : String
  user : Nat
  deriving DecidableEq, Repr

/-- `repairsapi.models.ServiceTicket`.  `employee` and `customer` are
foreign keys, embedded as record ids; `employee` and `date_completed`
are nullable.  `description` and `emergency` store whatever JSON value
the create handler assigned from the payload. -/
structure ServiceTicket where
  id : Nat
  description : Val
  emergency : Val
  date_completed : Option Nat
  employee : Option Nat
  customer : Nat
  deriving DecidableEq, Repr

/-- Modelled from the spec: the `ServiceTicket` model's field defaults
(`repairsapi/models.py` is not under `src/`).  Per the spec a ticket is
"created on customer-initiated POST with null employee and null
date_completed", so a freshly constructed `ServiceTicket()` has
`employee = None` and `date_completed = None`. -/
def ServiceTicket.blank (id : Nat) (customer : Nat)
    (description emergency : Val) : ServiceTicket :=
  { id := id, description := description, emergency := emergency,
    date_completed := none, employee := none, customer := customer }

/-- The database state the view reads and writes: the three tables. -/
structure DB where
  tickets : List ServiceTicket
  employees : List Employee
  customers : List Customer
  deriving DecidableEq, Repr

/-- The authenticated principal of a request (`request.auth.user`):
its identity and its staff capability (`is_staff`). -/
structure Principal where
  user : Nat
  is_staff : Bool
  deriving DecidableEq, Repr

/-- An exception escaping the handler body: a Django `Model.DoesNotExist`
from `objects.get`, or a `KeyError` from subscripting `request.data`. -/
inductive Exc where
  | ticketDoesNotExist
  | employeeDoesNotExist
  | customerDoesNotExist
  | keyError (key : String)
  deriving DecidableEq, Repr

/-- Modelled from the spec: the framework's mapping from an escaped
exception to an HTTP status code is not under `src/` (the HTTP server
and routing framework are out-of-scope collaborators).  The spec's
error taxonomy (sections 6 and 7) assigns NotFound (404) to "id does
not resolve to a record" and BadRequest (400) to "missing required
field in payload, or principal lacking a linked customer on create". -/
def Exc.status : Exc → Nat
  | .ticketDoesNotExist => 404
  | .employeeDoesNotExist => 404
  | .customerDoesNotExist => 400
  | .keyError _ => 400

/-- `ServiceTicket.objects.get(pk=pk)`. -/
def DB.getTicket (db : DB) (pk : Nat) : Except Exc ServiceTicket :=
  match db.tickets.find? (fun t => t.id = pk) with
  | some t => .ok t
  | none => .error .ticketDoesNotExist

/-- `Employee.objects.get(pk=employee_id)` where `employee_id` came out
of the JSON payload; a non-numeric value matches no row. -/
def DB.getEmployee (db : DB) (v : Val) : Except Exc Employee :=
  match db.employees.find? (fun e => Val.num e.id = v) with
  | some e => .ok e
  | none => .error .employeeDoesNotExist

/-- `Customer.objects.get(user=request.auth.user)`. -/
def DB.getCustomer (db : DB) (user : Nat) : Except Exc Customer :=
  match db.customers.find? (fun c => c.user = user) with
  | some c => .ok c
  | none => .error .customerDoesNotExist

/-- `ticket.save()` on an already-persisted row: the row with the
ticket's primary key is overwritten. -/
def DB.saveTicket (db : DB) (t : ServiceTicket) : DB :=
  { db with tickets := db.tickets.map (fun u => if u.id = t.id then t else u) }

/-- Modelled from the spec: primary-key assignment on first save
(the persistence engine is an out-of-scope collaborator).  A fresh row
gets an id not used by any existing ticket. -/
def DB.freshTicketId (db : DB) : Nat :=
  (db.tickets.map (fun t => t.id)).foldr max 0 + 1

/-- Nested employee representation produced by `TicketEmployeeSerializer`
(fields `id`, `specialty`, `full_name`). -/
structure EmployeeRep where
  id : Nat
  specialty : String
  full_name : String
  deriving DecidableEq, Repr

/-- Nested customer representation produced by `TicketCustomerSerializer`
(fields `id`, `address`, `full_name`). -/
structure CustomerRep where
  id : Nat
  address : String
  full_name : String
  deriving DecidableEq, Repr

/-- Ticket representation produced by `TicketSerializer` (fields `id`,
`description`, `emergency`, `date_completed`, `employee`, `customer`,
with the two references serialized as nested objects, `null` when the
reference is null or dangling). -/
structure TicketRep where
  id : Nat
  description : Val
  emergency : Val
  date_completed : Option Nat
  employee : Option EmployeeRep
  customer : Option CustomerRep
  deriving DecidableEq, Repr

def Employee.rep (e : Employee) : EmployeeRep :=
  { id := e.id, specialty := e.specialty, full_name := e.full_name }

def Customer.rep (c : Customer) : CustomerRep :=
  { id := c.id, address := c.address, full_name := c.full_name }

/-- `TicketSerializer` applied to one ticket: the foreign keys are
resolved against the database to build the nested objects. -/
def serializeTicket (db : DB) (t : ServiceTicket) : TicketRep :=
  { id := t.id, description := t.description, emergency := t.emergency,
    date_completed := t.date_completed,
    employee := (t.employee.bind
      (fun eid => db.employees.find? (fun e => e.id = eid))).map Employee.rep,
    customer := (db.customers.find? (fun c => c.id = t.customer)).map
      Customer.rep }

/-- A response body: a single serialized ticket, a list of serialized
tickets, or `None`. -/
inductive Body where
  | one (r : TicketRep)
  | many (rs : List TicketRep)
  | empty
  deriving DecidableEq, Repr

/-- An HTTP response: status code and body. -/
structure Resp where
  status : Nat
  body : Body
  deriving DecidableEq, Repr

namespace TicketView

/-- `TicketView.destroy`: look the ticket up by primary key, delete it,
return `204` with no body. -/
def destroy (db : DB) (_p : Principal) (pk : Nat) :
    Except Exc (Resp × DB) := do
  let t ← db.getTicket pk
  let db := { db with tickets := db.tickets.filter (fun u => ¬ u.id = t.id) }
  pure ({ status := 204, body := .empty }, db)

/-- `TicketView.create`: resolve the principal's customer, read
`description` and `emergency` from the payload, save a fresh ticket and
return its representation with `201`. -/
def create (db : DB) (p : Principal) (data : Payload) :
    Except Exc (Resp × DB) := do
  let cust ← db.getCustomer p.user
  let desc ← match data.get "description" with
    | some v => pure v
    | none => Except.error (Exc.keyError "description")
  let emer ← match data.get "emergency" with
    | some v => pure v
    | none => Except.error (Exc.keyError "emergency")
  let t := ServiceTicket.blank db.freshTicketId cust.id desc emer
  let db := { db with tickets := db.tickets ++ [t] }
  pure ({ status := 201, body := .one (serializeTicket db t) }, db)

/-- `TicketView.list`: staff principals get all tickets, narrowed to
completed ones when the `status` query parameter is `"done"` (a
`status` of `"all"` or any other value leaves the set unfiltered);
non-staff principals get exactly the tickets whose customer is linked
to them.  Always `200`. -/
def list (db : DB) (p : Principal) (query : List (String × String)) : Resp :=
  let tickets :=
    if p.is_staff then
      match query.lookup "status" with
      | some s =>
          if s = "done" then
            db.tickets.filter (fun t => t.date_completed.isSome)
          else db.tickets
      | none => db.tickets
    else
      db.tickets.filter (fun t =>
        match db.customers.find? (fun c => c.id = t.customer) with
        | some c => c.user = p.user
        | none => false)
  { status := 200, body := .many (tickets.map (serializeTicket db)) }

/-- `TicketView.retrieve`: look the ticket up by primary key and return
its representation with `200`. -/
def retrieve (db : DB) (_p : Principal) (pk : Nat) : Except Exc Resp := do
  let t ← db.getTicket pk
  pure { status := 200, body := .one (serializeTicket db t) }

/-- `TicketView.update`: look the ticket up by primary key, read
`employee` from the payload, look that employee up, attach it to the
ticket, save, and return `204` with no body. -/
def update (db : DB) (_p : Principal) (pk : Nat) (data : Payload) :
    Except Exc (Resp × DB) := do
  let t ← db.getTicket pk
  let employee_id ← match data.get "employee" with
    | some v => pure v
    | none => Except.error (Exc.keyError "employee")
  let assigned ← db.getEmployee employee_id
  let t := { t with employee := some assigned.id }
  let db := db.saveTicket t
  pure ({ status := 204, body := .empty }, db)

/-- The handler as seen over HTTP: an escaped exception becomes an
error-status response and leaves the database unchanged (no write has
happened when any of the exceptions above is raised). -/
def handled (db : DB) (r : Except Exc (Resp × DB)) : Resp × DB :=
  match r with
  | .ok out => out
  | .error e => ({ status := e.status, body := .empty }, db)

def destroyH (db : DB) (p : Principal) (pk : Nat) : Resp × DB :=
  handled db (destroy db p pk)

def createH (db : DB) (p : Principal) (data : Payload) : Resp × DB :=
  handled db (create db p data)

def updateH (db : DB) (p : Principal) (pk : Nat) (data : Payload) :
    Resp × DB :=
  handled db (update db p pk data)

def retrieveH (db : DB) (p : Principal) (pk : Nat) : Resp :=
  match retrieve db p pk with
  | .ok r => r
  | .error e => { status := e.status, body := .empty }

end TicketView

end HoneyRae

namespace HoneyRae

open TicketView

/-! ## Helper lemmas -/

/-- After overwriting the row whose primary key `find?` located (with a
row carrying the same key), `find?` locates the overwritten row. -/
theorem find_after_save (l : List ServiceTicket) (pk : Nat)
    (t t2 : ServiceTicket) (h : l.find? (fun u => u.id = pk) = some t)
    (hid : t2.id = t.id) :
    (l.map (fun u => if u.id = t2.id then t2 else u)).find?
      (fun u => u.id = pk) = some t2 := by
  have htpk : t.id = pk := by simpa using List.find?_some h
  induction l with
  | nil => simp at h
  | cons a l ih =>
      by_cases ha : a.id = pk
      · rw [List.find?_cons_of_pos _ (by simpa using ha)] at h
        have hat : a = t := Option.some.inj h
        subst hat
        rw [List.map_cons, if_pos hid.symm,
          List.find?_cons_of_pos _ (by simpa using hid.trans htpk)]
      · rw [List.find?_cons_of_neg _ (by simpa using ha)] at h
        have hat : ¬ a.id = t2.id := fun hc => ha (hc.trans (hid.trans htpk))
        rw [List.map_cons, if_neg hat,
          List.find?_cons_of_neg _ (by simpa using ha)]
        exact ih h

/-- `find?` success names a member satisfying the predicate. -/
theorem find_mem_pred (l : List ServiceTicket) (pk : Nat)
    (t : ServiceTicket) (h : l.find? (fun u => u.id = pk) = some t) :
    t ∈ l ∧ t.id = pk :=
  ⟨List.mem_of_find?_eq_some h, by simpa using List.find?_some h⟩

/-- `saveTicket` rewrites only the ticket table. -/
theorem saveTicket_employees (db : DB) (t : ServiceTicket) :
    (db.saveTicket t).employees = db.employees := rfl

/-- `saveTicket` rewrites only the ticket table. -/
theorem saveTicket_customers (db : DB) (t : ServiceTicket) :
    (db.saveTicket t).customers = db.customers := rfl

/-! ## Sample records for concrete evaluation -/

def sampleCustomer1 : Customer :=
  { id := 1, address := "a", full_name := "A", user := 10 }

def sampleCustomer2 : Customer :=
  { id := 2, address := "b", full_name := "B", user := 20 }

def sampleEmp3 : Employee :=
  { id := 3, specialty := "s", full_name := "E3" }

def sampleEmp4 : Employee :=
  { id := 4, specialty := "h", full_name := "E4" }

def sampleTicket1 : ServiceTicket :=
  { id := 1, description := .str "x", emergency := .bool false,
    date_completed := none, employee := none, customer := 1 }

def sampleTicket2 : ServiceTicket :=
  { id := 2, description := .str "y", emergency := .bool true,
    date_completed := some 5, employee := some 3, customer := 2 }

/-- A concrete database (two tickets, two employees, two customers)
used to evaluate the theorems below at concrete inputs. -/
def sampleDB : DB :=
  { tickets := [sampleTicket1, sampleTicket2],
    employees := [sampleEmp3, sampleEmp4],
    customers := [sampleCustomer1, sampleCustomer2] }

/-! ## C1 -/

/-- C1: for every ticket id that does not resolve to an existing
ticket, `retrieve`, `update` and `destroy` fail with NotFound (404) and
leave the database unchanged. -/
theorem not_found_on_missing_id (db : DB) (p : Principal) (pk : Nat)
    (data : Payload)
    (h : db.tickets.find? (fun t => t.id = pk) = none) :
    retrieveH db p pk = { status := 404, body := .empty } ∧
    updateH db p pk data = ({ status := 404, body := .empty }, db) ∧
    destroyH db p pk = ({ status := 404, body := .empty }, db) := by
  refine ⟨?_, ?_, ?_⟩ <;>
    simp [retrieveH, updateH, destroyH, retrieve, update, destroy,
      handled, DB.getTicket, h, Exc.status, Bind.bind, Except.bind, Pure.pure, Except.pure,
      Functor.map, Except.map]

/-- C1 witness: the sample database queried at the absent id `99`. -/
theorem not_found_on_missing_id_witness :
    sampleDB.tickets.find? (fun t => t.id = 99) = none ∧
    retrieveH sampleDB ⟨10, false⟩ 99 = { status := 404, body := .empty } :=
  ⟨by decide,
   (not_found_on_missing_id sampleDB ⟨10, false⟩ 99 [] (by decide)).1⟩

/-! ## C2 -/

/-- C2: a create request whose payload lacks `description` or
`emergency`, or whose principal has no linked customer, fails with
BadRequest (400) and persists nothing. -/
theorem create_rejects_bad_request (db : DB) (p : Principal)
    (data : Payload)
    (h : data.get "description" = none ∨ data.get "emergency" = none ∨
      db.customers.find? (fun c => c.user = p.user) = none) :
    (createH db p data).1.status = 400 ∧ (createH db p data).2 = db := by
  cases hc : db.customers.find? (fun c => c.user = p.user) with
  | none =>
      constructor <;>
        simp [createH, create, handled, DB.getCustomer, hc, Exc.status,
          Bind.bind, Except.bind, Pure.pure, Except.pure]
  | some c =>
      cases hd : data.get "description" with
      | none =>
          constructor <;>
            simp [createH, create, handled, DB.getCustomer, hc, hd,
              Exc.status, Bind.bind, Except.bind, Pure.pure, Except.pure]
      | some d =>
          have hemer : data.get "emergency" = none := by
            rcases h with h | h | h
            · rw [hd] at h; exact Option.noConfusion h
            · exact h
            · rw [hc] at h; exact Option.noConfusion h
          constructor <;>
            simp [createH, create, handled, DB.getCustomer, hc, hd, hemer,
              Exc.status, Bind.bind, Except.bind, Pure.pure, Except.pure]

/-- C2 witness: a payload carrying only `emergency` (no `description`)
from the principal linked to the sample customer. -/
theorem create_rejects_bad_request_witness :
    (Payload.get [("emergency", Val.bool true)] "description" = none) ∧
    (createH sampleDB ⟨10, false⟩ [("emergency", Val.bool true)]).1.status
       = 400 ∧
    (createH sampleDB ⟨10, false⟩ [("emergency", Val.bool true)]).2
       = sampleDB :=
  ⟨by decide,
   (create_rejects_bad_request sampleDB ⟨10, false⟩
      [("emergency", Val.bool true)] (Or.inl (by decide))).1,
   (create_rejects_bad_request sampleDB ⟨10, false⟩
      [("emergency", Val.bool true)] (Or.inl (by decide))).2⟩

/-! ## C3 -/

/-- C3: a non-staff principal's `list` returns exactly the tickets
whose owning customer is linked to that principal, and the `status`
query parameter has no effect on the result. -/
theorem list_non_staff_owned_only (db : DB) (p : Principal)
    (query : List (String × String)) (h : p.is_staff = false) :
    TicketView.list db p query =
      { status := 200,
        body := .many ((db.tickets.filter (fun t =>
          match db.customers.find? (fun c => c.id = t.customer) with
          | some c => c.user = p.user
          | none => false)).map (serializeTicket db)) } ∧
    TicketView.list db p query = TicketView.list db p [] := by
  constructor <;> simp [TicketView.list, h]

/-- C3 witness: the non-staff principal of user `10` listing with
`status=done`, compared against listing with no query. -/
theorem list_non_staff_owned_only_witness :
    ((⟨10, false⟩ : Principal).is_staff = false) ∧
    TicketView.list sampleDB ⟨10, false⟩ [("status", "done")] =
      TicketView.list sampleDB ⟨10, false⟩ [] :=
  ⟨rfl,
   (list_non_staff_owned_only sampleDB ⟨10, false⟩ [("status", "done")]
      rfl).2⟩

/-! ## C4 -/

/-- C4: a staff principal's `list` always answers 200; it returns all
tickets when `status` is absent, `"all"`, or any value other than
`"done"`, and exactly the tickets with a non-null `date_completed` when
`status` is `"done"`. -/
theorem list_staff_filtering (db : DB) (p : Principal)
    (query : List (String × String)) (h : p.is_staff = true) :
    (TicketView.list db p query).status = 200 ∧
    (query.lookup "status" = some "done" →
      (TicketView.list db p query).body = .many
        ((db.tickets.filter (fun t => t.date_completed.isSome)).map
          (serializeTicket db))) ∧
    (¬ query.lookup "status" = some "done" →
      (TicketView.list db p query).body = .many
        (db.tickets.map (serializeTicket db))) := by
  refine ⟨by simp [TicketView.list, h], ?_, ?_⟩
  · intro hs
    simp [TicketView.list, h, hs]
  · intro hs
    cases hq : query.lookup "status" with
    | none => simp [TicketView.list, h, hq]
    | some s =>
        have hne : ¬ s = "done" := by
          intro hcontra
          exact hs (hcontra ▸ hq)
        simp [TicketView.list, h, hq, hne]

/-- C4 witness: the staff principal listing the sample database with
`status=done` sees exactly the completed ticket. -/
theorem list_staff_filtering_witness :
    ((⟨10, true⟩ : Principal).is_staff = true) ∧
    ([("status", "done")].lookup "status" = some "done") ∧
    (TicketView.list sampleDB ⟨10, true⟩ [("status", "done")]).body = .many
      ((sampleDB.tickets.filter (fun t => t.date_completed.isSome)).map
        (serializeTicket sampleDB)) :=
  ⟨rfl, by decide,
   (list_staff_filtering sampleDB ⟨10, true⟩ [("status", "done")]
      rfl).2.1 (by decide)⟩

/-! ## C5 -/

/-- C5: a create request with both `description` and `emergency`
present, from a principal with a linked customer, persists a new ticket
owned by that customer with null employee and null `date_completed`,
and returns its serialized representation with 201. -/
theorem create_success (db : DB) (p : Principal) (data : Payload)
    (c : Customer) (d e : Val)
    (hc : db.customers.find? (fun x => x.user = p.user) = some c)
    (hd : data.get "description" = some d)
    (he : data.get "emergency" = some e) :
    createH db p data =
      ({ status := 201,
         body := .one (serializeTicket
           { db with tickets := db.tickets ++
               [ServiceTicket.blank db.freshTicketId c.id d e] }
           (ServiceTicket.blank db.freshTicketId c.id d e)) },
       { db with tickets := db.tickets ++
           [ServiceTicket.blank db.freshTicketId c.id d e] }) ∧
    (ServiceTicket.blank db.freshTicketId c.id d e).employee = none ∧
    (ServiceTicket.blank db.freshTicketId c.id d e).date_completed
       = none ∧
    (ServiceTicket.blank db.freshTicketId c.id d e).customer = c.id := by
  refine ⟨?_, rfl, rfl, rfl⟩
  simp [createH, create, handled, DB.getCustomer, hc, hd, he,
    Bind.bind, Except.bind, Pure.pure, Except.pure]

/-- C5 witness: a valid payload from the principal linked to the first
sample customer; the response status is 201 and the stored table gains
exactly the blank ticket owned by customer 1. -/
theorem create_success_witness :
    (Payload.get [("description", Val.str "z"), ("emergency", Val.bool true)]
        "description" = some (Val.str "z")) ∧
    (createH sampleDB ⟨10, false⟩
        [("description", Val.str "z"), ("emergency", Val.bool true)]).1.status
      = 201 ∧
    (createH sampleDB ⟨10, false⟩
        [("description", Val.str "z"), ("emergency", Val.bool true)]).2.tickets
      = sampleDB.tickets ++
        [ServiceTicket.blank sampleDB.freshTicketId 1 (Val.str "z")
          (Val.bool true)] := by
  have h := (create_success sampleDB ⟨10, false⟩
    [("description", Val.str "z"), ("emergency", Val.bool true)]
    sampleCustomer1 (Val.str "z") (Val.bool true)
    (by decide) (by decide) (by decide)).1
  refine ⟨by decide, ?_, ?_⟩
  · rw [h]
  · rw [h]
    rfl

/-! ## C8 -/

/-- C8: `retrieve`, `update` and `destroy` perform no ownership or
staff check: their outcome, including the representation returned by
`retrieve`, is identical for every authenticated principal. -/
theorem pk_handlers_ignore_principal (db : DB) (pk : Nat)
    (data : Payload) (p1 p2 : Principal) :
    retrieveH db p1 pk = retrieveH db p2 pk ∧
    updateH db p1 pk data = updateH db p2 pk data ∧
    destroyH db p1 pk = destroyH db p2 pk :=
  ⟨rfl, rfl, rfl⟩

/-! ## C6 -/

/-- C6: on an existing ticket, `update` with a resolving employee id
sets that employee on the ticket and answers 204 with an empty body;
a second `update` with a different resolving employee id overwrites the
first assignment (last write wins). -/
theorem update_assigns_employee (db : DB) (p q : Principal) (pk : Nat)
    (data data2 : Payload) (v v2 : Val) (t : ServiceTicket)
    (emp emp2 : Employee)
    (ht : db.tickets.find? (fun u => u.id = pk) = some t)
    (hd : data.get "employee" = some v)
    (he : db.employees.find? (fun x => Val.num x.id = v) = some emp)
    (hd2 : data2.get "employee" = some v2)
    (he2 : db.employees.find? (fun x => Val.num x.id = v2) = some emp2) :
    updateH db p pk data =
      ({ status := 204, body := .empty },
        db.saveTicket { t with employee := some emp.id }) ∧
    (updateH db p pk data).2.tickets.find? (fun u => u.id = pk) =
      some { t with employee := some emp.id } ∧
    (updateH (updateH db p pk data).2 q pk data2).2.tickets.find?
      (fun u => u.id = pk) = some { t with employee := some emp2.id } := by
  have h1 : updateH db p pk data =
      ({ status := 204, body := .empty },
        db.saveTicket { t with employee := some emp.id }) := by
    simp [updateH, update, handled, DB.getTicket, ht, hd,
      DB.getEmployee, he, Bind.bind, Except.bind, Pure.pure, Except.pure,
      Functor.map, Except.map]
  have hfind1 : (db.saveTicket { t with employee := some emp.id
      }).tickets.find? (fun u => u.id = pk) =
      some { t with employee := some emp.id } :=
    find_after_save db.tickets pk t _ ht rfl
  have h2 : updateH (db.saveTicket { t with employee := some emp.id }) q
      pk data2 =
      ({ status := 204, body := .empty },
        (db.saveTicket { t with employee := some emp.id }).saveTicket
          { t with employee := some emp2.id }) := by
    simp [updateH, update, handled, DB.getTicket, hfind1, hd2,
      DB.getEmployee, saveTicket_employees, he2, Bind.bind, Except.bind,
      Pure.pure, Except.pure, Functor.map, Except.map]
  refine ⟨h1, ?_, ?_⟩
  · rw [h1]
    exact hfind1
  · rw [h1, h2]
    exact find_after_save _ pk { t with employee := some emp.id } _
      hfind1 rfl

/-- C6 witness: updating sample ticket 1 with employee 3, then with
employee 4; the stored ticket ends assigned to employee 4. -/
theorem update_assigns_employee_witness :
    (sampleDB.tickets.find? (fun u => u.id = 1) = some sampleTicket1) ∧
    (updateH sampleDB ⟨10, false⟩ 1 [("employee", Val.num 3)]).2.tickets.find?
      (fun u => u.id = 1) =
        some { sampleTicket1 with employee := some 3 } ∧
    (updateH (updateH sampleDB ⟨10, false⟩ 1 [("employee", Val.num 3)]).2
        ⟨20, true⟩ 1 [("employee", Val.num 4)]).2.tickets.find?
      (fun u => u.id = 1) =
        some { sampleTicket1 with employee := some 4 } := by
  have h := update_assigns_employee sampleDB ⟨10, false⟩ ⟨20, true⟩ 1
    [("employee", Val.num 3)] [("employee", Val.num 4)]
    (Val.num 3) (Val.num 4) sampleTicket1 sampleEmp3 sampleEmp4
    (by decide) (by decide) (by decide) (by decide) (by decide)
  exact ⟨by decide, h.2.1, h.2.2⟩

/-! ## C7 -/

/-- C7: a successful `update` changes only the employee reference of
the addressed ticket: every other field of that ticket, every other
ticket, and the employee and customer tables are unchanged. -/
theorem update_frame (db : DB) (p : Principal) (pk : Nat)
    (data : Payload) (v : Val) (t : ServiceTicket) (emp : Employee)
    (hnodup : (db.tickets.map (fun u => u.id)).Nodup)
    (ht : db.tickets.find? (fun u => u.id = pk) = some t)
    (hd : data.get "employee" = some v)
    (he : db.employees.find? (fun x => Val.num x.id = v) = some emp) :
    (updateH db p pk data).2.employees = db.employees ∧
    (updateH db p pk data).2.customers = db.customers ∧
    (updateH db p pk data).2.tickets =
      db.tickets.map (fun u =>
        if u.id = pk then { u with employee := some emp.id } else u) := by
  have h1 : (updateH db p pk data).2 =
      db.saveTicket { t with employee := some emp.id } := by
    simp [updateH, update, handled, DB.getTicket, ht, hd,
      DB.getEmployee, he, Bind.bind, Except.bind, Pure.pure, Except.pure,
      Functor.map, Except.map]
  have hmem := find_mem_pred db.tickets pk t ht
  refine ⟨by rw [h1]; rfl, by rw [h1]; rfl, ?_⟩
  rw [h1]
  show db.tickets.map _ = db.tickets.map _
  apply List.map_congr_left
  intro u hu
  by_cases hupk : u.id = pk
  · have hut : u = t :=
      List.inj_on_of_nodup_map hnodup hu hmem.1 (hupk.trans hmem.2.symm)
    subst hut
    simp [hupk]
  · have hut2 : ¬ u.id = ({ t with employee := some emp.id
        } : ServiceTicket).id := by
      show ¬ u.id = t.id
      rw [hmem.2]
      exact hupk
    simp [hupk, hut2]

/-- C7 witness: updating sample ticket 1 with employee 3 leaves the
second ticket and the employee and customer tables untouched. -/
theorem update_frame_witness :
    ((sampleDB.tickets.map (fun u => u.id)).Nodup) ∧
    (updateH sampleDB ⟨10, false⟩ 1 [("employee", Val.num 3)]).2.tickets =
      sampleDB.tickets.map (fun u =>
        if u.id = 1 then { u with employee := some 3 } else u) ∧
    (updateH sampleDB ⟨10, false⟩ 1 [("employee", Val.num 3)]).2.employees =
      sampleDB.employees := by
  have h := update_frame sampleDB ⟨10, false⟩ 1 [("employee", Val.num 3)]
    (Val.num 3) sampleTicket1 sampleEmp3
    (by decide) (by decide) (by decide) (by decide)
  exact ⟨by decide, h.2.2, h.1⟩

/-! ## C9 -/

/-- C9: an `update` on an existing ticket that fails because the
payload lacks `employee`, or because the employee id does not resolve,
leaves the database unchanged: the assignment and save only run after
both lookups succeed. -/
theorem update_error_leaves_db (db : DB) (p : Principal) (pk : Nat)
    (data : Payload) (t : ServiceTicket)
    (ht : db.tickets.find? (fun u => u.id = pk) = some t)
    (h : data.get "employee" = none ∨
      ∃ v, data.get "employee" = some v ∧
        db.employees.find? (fun x => Val.num x.id = v) = none) :
    (updateH db p pk data).2 = db := by
  rcases h with h | ⟨v, hv, hfind⟩
  · simp [updateH, update, handled, DB.getTicket, ht, h, Bind.bind,
      Except.bind, Pure.pure, Except.pure, Functor.map, Except.map]
  · simp [updateH, update, handled, DB.getTicket, ht, hv,
      DB.getEmployee, hfind, Bind.bind, Except.bind, Pure.pure,
      Except.pure, Functor.map, Except.map]

/-- C9 witness: an empty payload against sample ticket 1 leaves the
sample database unchanged. -/
theorem update_error_leaves_db_witness :
    (sampleDB.tickets.find? (fun u => u.id = 1) = some sampleTicket1) ∧
    (updateH sampleDB ⟨10, false⟩ 1 []).2 = sampleDB :=
  ⟨by decide,
   update_error_leaves_db sampleDB ⟨10, false⟩ 1 [] sampleTicket1
     (by decide) (Or.inl (by decide))⟩

/-! ## C10 -/

/-- C10: `create` reads only `description` and `emergency` from the
payload: two payloads agreeing on those two keys produce identical
results (extra keys such as `employee`, `date_completed` or `customer`
are ignored), and any ticket it appends has null employee, null
`date_completed`, and the customer linked to the principal. -/
theorem create_reads_only_required_keys (db : DB) (p : Principal)
    (data1 data2 : Payload)
    (hd : data1.get "description" = data2.get "description")
    (he : data1.get "emergency" = data2.get "emergency") :
    createH db p data1 = createH db p data2 ∧
    ∀ t : ServiceTicket,
      (createH db p data1).2.tickets = db.tickets ++ [t] →
      t.employee = none ∧ t.date_completed = none ∧
      ∀ c : Customer,
        db.customers.find? (fun x => x.user = p.user) = some c →
        t.customer = c.id := by
  constructor
  · simp only [createH, create, hd, he]
  · intro t hteq
    cases hc : db.customers.find? (fun x => x.user = p.user) with
    | none =>
        exfalso
        have hsame : (createH db p data1).2.tickets = db.tickets := by
          simp [createH, create, handled, DB.getCustomer, hc, Bind.bind,
            Except.bind, Pure.pure, Except.pure]
        rw [hsame] at hteq
        have := congrArg List.length hteq
        simp at this
    | some c =>
        cases hd1 : data1.get "description" with
        | none =>
            exfalso
            have hsame : (createH db p data1).2.tickets = db.tickets := by
              simp [createH, create, handled, DB.getCustomer, hc, hd1,
                Bind.bind, Except.bind, Pure.pure, Except.pure]
            rw [hsame] at hteq
            have := congrArg List.length hteq
            simp at this
        | some d =>
            cases he1 : data1.get "emergency" with
            | none =>
                exfalso
                have hsame : (createH db p data1).2.tickets
                    = db.tickets := by
                  simp [createH, create, handled, DB.getCustomer, hc, hd1,
                    he1, Bind.bind, Except.bind, Pure.pure, Except.pure]
                rw [hsame] at hteq
                have := congrArg List.length hteq
                simp at this
            | some e =>
                have hnew : (createH db p data1).2.tickets =
                    db.tickets ++
                      [ServiceTicket.blank db.freshTicketId c.id d e] := by
                  simp [createH, create, handled, DB.getCustomer, hc, hd1,
                    he1, Bind.bind, Except.bind, Pure.pure, Except.pure]
                rw [hnew] at hteq
                have htb : ServiceTicket.blank db.freshTicketId c.id d e
                    = t := by
                  simpa using List.append_cancel_left hteq
                subst htb
                refine ⟨rfl, rfl, ?_⟩
                intro c2 hc2
                cases Option.some.inj hc2
                rfl

/-- C10 witness: a payload padded with `employee`, `date_completed` and
`customer` keys produces the same result as the two-key payload. -/
theorem create_reads_only_required_keys_witness :
    (Payload.get [("description", Val.str "z"), ("emergency", Val.bool true),
        ("employee", Val.num 4), ("date_completed", Val.num 9),
        ("customer", Val.num 2)] "description" =
      Payload.get [("description", Val.str "z"), ("emergency", Val.bool true)]
        "description") ∧
    createH sampleDB ⟨10, false⟩
        [("description", Val.str "z"), ("emergency", Val.bool true),
         ("employee", Val.num 4), ("date_completed", Val.num 9),
         ("customer", Val.num 2)] =
      createH sampleDB ⟨10, false⟩
        [("description", Val.str "z"), ("emergency", Val.bool true)] :=
  ⟨by decide,
   (create_reads_only_required_keys sampleDB ⟨10, false⟩
      [("description", Val.str "z"), ("emergency", Val.bool true),
       ("employee", Val.num 4), ("date_completed", Val.num 9),
       ("customer", Val.num 2)]
      [("description", Val.str "z"), ("emergency", Val.bool true)]
      (by decide) (by decide)).1⟩

end HoneyRae
